import Mathlib

/-!
Verification of the Mori bot core (H-pun/Mori) against its natural-language
specification.  The Rust sources are shallowly embedded: pure fragments become
Lean functions, stateful fragments take their pre-state and the results of
their I/O calls as explicit arguments and return the effects they perform.
Machine integers are modelled as `Nat`/`Int`; byte buffers as `List Nat` with
every element below 256; the `f32` world coordinates are modelled as exact
rationals (`ℚ`), with the one float operation that matters — comparing
`sqrt (dx^2 + dy^2)` against `5.0` — replaced by the equivalent exact
comparison of `dx^2 + dy^2` against `25`.
-/

namespace Mori

/-! ## Little-endian byte strings

`bincode` fixed-width integer fields are little-endian byte strings.
`toLE w v` is the `w`-byte little-endian encoding of `v`, `fromLE` reads a
byte string back.  These model `u32::to_le_bytes` and the fixed-layout
`bincode` field codec used for `TankPacket`. -/

def toLE : Nat → Nat → List Nat
  | 0, _ => []
  | w + 1, v => v % 256 :: toLE w (v / 256)

def fromLE (bs : List Nat) : Nat :=
  bs.foldr (fun b acc => b + 256 * acc) 0

theorem fromLE_nil : fromLE [] = 0 := rfl

theorem fromLE_cons (b : Nat) (bs : List Nat) :
    fromLE (b :: bs) = b + 256 * fromLE bs := rfl

/-- Reading back a byte string and re-encoding it at its own width is the
identity, provided every byte is in range. -/
theorem toLE_fromLE (bs : List Nat) (h : ∀ b ∈ bs, b < 256) :
    toLE bs.length (fromLE bs) = bs := by
  induction bs with
  | nil => rfl
  | cons b rest ih =>
    have hb : b < 256 := h b (List.mem_cons_self _ _)
    have hrest : ∀ x ∈ rest, x < 256 := fun x hx => h x (List.mem_cons_of_mem _ hx)
    have hmod : (b + 256 * fromLE rest) % 256 = b := by
      rw [Nat.add_mul_mod_self_left, Nat.mod_eq_of_lt hb]
    have hdiv : (b + 256 * fromLE rest) / 256 = fromLE rest := by
      rw [Nat.add_mul_div_left _ _ (by norm_num : 0 < 256),
        Nat.div_eq_of_lt hb, Nat.zero_add]
    simp only [List.length_cons, toLE, fromLE_cons, hmod, hdiv, ih hrest]

/-- Splicing two adjacent chunks of a list. -/
theorem take_drop_append (l : List Nat) (a b c : Nat) :
    (l.drop a).take b ++ (l.drop (a + b)).take c = (l.drop a).take (b + c) := by
  rw [List.take_add, ← List.drop_drop]

theorem chunk_length (l : List Nat) (a b : Nat) (h : a + b ≤ l.length) :
    ((l.drop a).take b).length = b := by
  rw [List.length_take, List.length_drop]
  omega

theorem chunk_mem (l : List Nat) (a b x : Nat) (h : x ∈ (l.drop a).take b) : x ∈ l :=
  List.mem_of_mem_drop (List.mem_of_mem_take h)

/-! ## The `TankPacket` wire record (`src/types/tank_packet.rs`, via `bincode`)

Modelled from the spec: the `TankPacket` struct declaration itself is not
among the provided sources; the spec fixes its wire shape — a fixed-layout
header whose first byte is the action-kind tag, containing two float
coordinates, two integer tile coordinates, a `u32` bit-flag field, a `u32`
generic value and a `u32` trailing-length field, with the bytes after a fixed
56-byte offset being the extended data (`packet_handler.rs` slices
`&data[56..]`).  The named fields are placed as 32-bit little-endian words at
the end of the header, the trailing-length word last; the header bytes the
spec does not name are kept opaque in `filler` (27 bytes, bringing the header
to 56).  Floats are carried as their raw 32-bit patterns, which `bincode`
writes and reads verbatim, so their exact interpretation never matters for
the codec.  `bincode::deserialize` reads exactly the fixed header and ignores
any trailing bytes; it fails on inputs shorter than the header. -/

structure TankPacket where
  packet_type : Nat
  filler : List Nat
  vector_x : Nat
  vector_y : Nat
  int_x : Nat
  int_y : Nat
  flags : Nat
  value : Nat
  extended_data_length : Nat
  deriving DecidableEq, Repr

/-- The fixed header size in bytes (`size_of::<TankPacket>()`). -/
def tankHeaderSize : Nat := 56

/-- Modelled from the spec: the numeric value of the game-packet kind tag
(`EPacketType::NetMessageGamePacket as u32`); the enum declaration is not in
the provided sources and every claim treats the 4 tag bytes opaquely. -/
def netMessageGamePacketTag : Nat := 4

/-- `bincode::serialize::<TankPacket>`: the 56-byte fixed-layout header. -/
def serializeTank (p : TankPacket) : List Nat :=
  toLE 1 p.packet_type ++ p.filler ++ toLE 4 p.vector_x ++ toLE 4 p.vector_y ++
    toLE 4 p.int_x ++ toLE 4 p.int_y ++ toLE 4 p.flags ++ toLE 4 p.value ++
    toLE 4 p.extended_data_length

/-- The record read from the first 56 bytes of a buffer. -/
def decodeTank (data : List Nat) : TankPacket where
  packet_type := fromLE (data.take 1)
  filler := (data.drop 1).take 27
  vector_x := fromLE ((data.drop 28).take 4)
  vector_y := fromLE ((data.drop 32).take 4)
  int_x := fromLE ((data.drop 36).take 4)
  int_y := fromLE ((data.drop 40).take 4)
  flags := fromLE ((data.drop 44).take 4)
  value := fromLE ((data.drop 48).take 4)
  extended_data_length := fromLE ((data.drop 52).take 4)

/-- `bincode::deserialize::<TankPacket>(&data)`: fails on buffers shorter than
the fixed header, reads the header and ignores trailing bytes otherwise. -/
def deserializeTank (data : List Nat) : Option TankPacket :=
  if tankHeaderSize ≤ data.length then some (decodeTank data) else none

/-- The outbound ENet buffer built by `Bot::send_packet_raw`
(`src/core/mod.rs:681`): a zero-filled vector of size
`size_of::<EPacketType>() + size_of::<TankPacket>() + extended_data_length`,
whose first 4 bytes receive the little-endian game-packet tag and whose next
56 bytes receive the `bincode`-serialized header.  The trailing
`extended_data_length` bytes are never written, so they stay zero. -/
def sendPacketRawBuffer (p : TankPacket) : List Nat :=
  toLE 4 netMessageGamePacketTag ++ serializeTank p ++
    List.replicate p.extended_data_length 0

theorem deserializeTank_eq_some (data : List Nat) (h : 56 ≤ data.length) :
    deserializeTank data = some (decodeTank data) :=
  if_pos h

/-- A word-chunk of an in-range buffer re-encodes to itself. -/
theorem toLE_fromLE_chunk (data : List Nat) (a : Nat)
    (hlen : a + 4 ≤ data.length) (hb : ∀ b ∈ data, b < 256) :
    toLE 4 (fromLE ((data.drop a).take 4)) = (data.drop a).take 4 := by
  have h4 : ((data.drop a).take 4).length = 4 := chunk_length data a 4 hlen
  have := toLE_fromLE ((data.drop a).take 4)
    (fun b hbmem => hb b (chunk_mem data a 4 b hbmem))
  rwa [h4] at this

/-- Serializing the decoded record reproduces the first 56 bytes of the
buffer, byte for byte. -/
theorem serializeTank_decodeTank (data : List Nat) (h56 : 56 ≤ data.length)
    (hb : ∀ b ∈ data, b < 256) :
    serializeTank (decodeTank data) = data.take 56 := by
  have hb1 : toLE 1 (fromLE (data.take 1)) = data.take 1 := by
    have h1 : (data.take 1).length = 1 := by
      rw [List.length_take]
      omega
    have := toLE_fromLE (data.take 1) (fun b hbmem => hb b (List.mem_of_mem_take hbmem))
    rwa [h1] at this
  have h28 := toLE_fromLE_chunk data 28 (by omega) hb
  have h32 := toLE_fromLE_chunk data 32 (by omega) hb
  have h36 := toLE_fromLE_chunk data 36 (by omega) hb
  have h40 := toLE_fromLE_chunk data 40 (by omega) hb
  have h44 := toLE_fromLE_chunk data 44 (by omega) hb
  have h48 := toLE_fromLE_chunk data 48 (by omega) hb
  have h52 := toLE_fromLE_chunk data 52 (by omega) hb
  have c48 : (data.drop 48).take 4 ++ (data.drop 52).take 4 = (data.drop 48).take 8 := by
    have := take_drop_append data 48 4 4
    norm_num at this
    exact this
  have c44 : (data.drop 44).take 4 ++ (data.drop 48).take 8 = (data.drop 44).take 12 := by
    have := take_drop_append data 44 4 8
    norm_num at this
    exact this
  have c40 : (data.drop 40).take 4 ++ (data.drop 44).take 12 = (data.drop 40).take 16 := by
    have := take_drop_append data 40 4 12
    norm_num at this
    exact this
  have c36 : (data.drop 36).take 4 ++ (data.drop 40).take 16 = (data.drop 36).take 20 := by
    have := take_drop_append data 36 4 16
    norm_num at this
    exact this
  have c32 : (data.drop 32).take 4 ++ (data.drop 36).take 20 = (data.drop 32).take 24 := by
    have := take_drop_append data 32 4 20
    norm_num at this
    exact this
  have c28 : (data.drop 28).take 4 ++ (data.drop 32).take 24 = (data.drop 28).take 28 := by
    have := take_drop_append data 28 4 24
    norm_num at this
    exact this
  have c1 : data.tail.take 27 ++ (data.drop 28).take 28 = data.tail.take 55 := by
    have := take_drop_append data 1 27 28
    norm_num at this
    exact this
  have c0 : data.take 1 ++ data.tail.take 55 = data.take 56 := by
    have := take_drop_append data 0 1 55
    norm_num [List.drop_zero] at this
    exact this
  simp only [serializeTank, decodeTank, hb1, h28, h32, h36, h40, h44, h48, h52,
    List.append_assoc, List.drop_one, c48, c44, c40, c36, c32, c28, c1, c0]

/-- A 57-byte buffer: a valid 56-byte header declaring one byte of extended
data (bytes 52–55 hold the little-endian word 1), followed by the single
trailing byte `7`. -/
def tankCexBuf : List Nat := List.replicate 52 0 ++ [1, 0, 0, 0, 7]

/-- C1: the round-trip law fails as stated.  `tankCexBuf` is a valid header
plus `N = 1` trailing bytes with matching declared length; it decodes
successfully, but re-encoding writes a zero in place of the trailing byte
`7`, so the outbound buffer does not reproduce the original. -/
theorem c1_roundtrip_counterexample :
    (deserializeTank tankCexBuf).isSome = true ∧
      (deserializeTank tankCexBuf).map sendPacketRawBuffer ≠
        some (toLE 4 netMessageGamePacketTag ++ tankCexBuf) := by
  constructor
  · decide
  · decide

/-- C1 (amended): decoding a valid buffer of the fixed header size plus `N`
trailing bytes whose declared extended length equals `N`, then re-encoding it
as `send_packet_raw` builds the outbound buffer, reproduces the 4-byte kind
tag and the 56-byte header exactly — but the `N` trailing bytes of the
outbound buffer are always zero, because `send_packet_raw` sizes the buffer
for the extended data yet never copies it.  The original buffer is therefore
reproduced exactly iff all its trailing bytes are zero. -/
theorem c1_roundtrip_amended (buf : List Nat) (N : Nat)
    (hlen : buf.length = 56 + N)
    (hbytes : ∀ b ∈ buf, b < 256)
    (hdecl : fromLE ((buf.drop 52).take 4) = N) :
    (deserializeTank buf).map sendPacketRawBuffer =
      some (toLE 4 netMessageGamePacketTag ++ (buf.take 56 ++ List.replicate N 0)) := by
  have h56 : 56 ≤ buf.length := by omega
  rw [deserializeTank_eq_some buf h56, Option.map_some']
  have hext : (decodeTank buf).extended_data_length = N := hdecl
  rw [sendPacketRawBuffer, serializeTank_decodeTank buf h56 hbytes, hext,
    List.append_assoc]

/-- A 58-byte buffer: valid header declaring two bytes of extended data,
followed by the trailing bytes `9, 9`. -/
def tankWitnessBuf : List Nat := List.replicate 52 0 ++ [2, 0, 0, 0, 9, 9]

/-- C1 (witness): the amended round-trip law evaluated on `tankWitnessBuf`. -/
theorem c1_roundtrip_amended_witness :
    tankWitnessBuf.length = 56 + 2 ∧
      fromLE ((tankWitnessBuf.drop 52).take 4) = 2 ∧
      (deserializeTank tankWitnessBuf).map sendPacketRawBuffer =
        some (toLE 4 netMessageGamePacketTag ++
          (tankWitnessBuf.take 56 ++ List.replicate 2 0)) :=
  ⟨by decide, by decide,
    c1_roundtrip_amended tankWitnessBuf 2 (by decide) (by decide) (by decide)⟩

/-! ## `LoginInfo` and the packet handler (`src/bot/packet_handler.rs`)

The `LoginInfo` struct declaration is not among the provided sources, but
every field the claims touch appears by name in `packet_handler.rs` (the
full-handshake `format!` string) and in `Bot::update_login_info`
(`src/core/mod.rs:279`); the record below carries exactly those string
fields. -/

structure LoginInfo where
  uuid : String
  protocol : String
  fhash : String
  mac : String
  requested_name : String
  hash2 : String
  fz : String
  f : String
  player_age : String
  game_version : String
  lmode : String
  cbits : String
  rid : String
  gdpr : String
  hash : String
  category : String
  token : String
  total_playtime : String
  door_id : String
  klv : String
  meta : String
  platform_id : String
  device_version : String
  zf : String
  country : String
  user : String
  wk : String
  tank_id_name : String
  tank_id_pass : String
  deriving DecidableEq, Repr

/-- The full-handshake message `format!` string of
`packet_handler.rs:19-21`, with each `{}` replaced by the corresponding
`login_info` field. -/
def fullLoginMessage (i : LoginInfo) : String :=
  "UUIDToken|" ++ i.uuid ++ "\nprotocol|" ++ i.protocol ++ "\nfhash|" ++ i.fhash ++
    "\nmac|" ++ i.mac ++ "\nrequestedName|" ++ i.requested_name ++ "\nhash2|" ++ i.hash2 ++
    "\nfz|" ++ i.fz ++ "\nf|" ++ i.f ++ "\nplayer_age|" ++ i.player_age ++
    "\ngame_version|" ++ i.game_version ++ "\nlmode|" ++ i.lmode ++ "\ncbits|" ++ i.cbits ++
    "\nrid|" ++ i.rid ++ "\nGDPR|" ++ i.gdpr ++ "\nhash|" ++ i.hash ++
    "\ncategory|" ++ i.category ++ "\ntoken|" ++ i.token ++ "\ntotal_playtime|" ++ i.total_playtime ++
    "\ndoor_id|" ++ i.door_id ++ "\nklv|" ++ i.klv ++ "\nmeta|" ++ i.meta ++
    "\nplatformID|" ++ i.platform_id ++ "\ndeviceVersion|" ++ i.device_version ++ "\nzf|" ++ i.zf ++
    "\ncountry|" ++ i.country ++ "\nuser|" ++ i.user ++ "\nwk|" ++ i.wk ++ "\n"

/-- The light reconnection message `format!` string of
`packet_handler.rs:24-29`: `protocol` is the literal `209`, `ltoken` the
stored session token, `platformID` the literal `0,1,1`. -/
def lightLoginMessage (token : String) : String :=
  "protocol|209\nltoken|" ++ token ++ "\nplatformID|0,1,1\n"

/-- Canonical `key|value` block: each pair on its own line, terminated by a
newline. -/
def kvBlock : List (String × String) → String
  | [] => ""
  | p :: ps => p.1 ++ "|" ++ p.2 ++ "\n" ++ kvBlock ps

/-- The full-handshake field order, as ordered key/value pairs. -/
def fullHandshakeOrder (i : LoginInfo) : List (String × String) :=
  [("UUIDToken", i.uuid), ("protocol", i.protocol), ("fhash", i.fhash),
   ("mac", i.mac), ("requestedName", i.requested_name), ("hash2", i.hash2),
   ("fz", i.fz), ("f", i.f), ("player_age", i.player_age),
   ("game_version", i.game_version), ("lmode", i.lmode), ("cbits", i.cbits),
   ("rid", i.rid), ("GDPR", i.gdpr), ("hash", i.hash),
   ("category", i.category), ("token", i.token), ("total_playtime", i.total_playtime),
   ("door_id", i.door_id), ("klv", i.klv), ("meta", i.meta),
   ("platformID", i.platform_id), ("deviceVersion", i.device_version), ("zf", i.zf),
   ("country", i.country), ("user", i.user), ("wk", i.wk)]

/-- The 27 keys of the full-handshake message, in wire order. -/
def fullHandshakeKeys : List String :=
  ["UUIDToken", "protocol", "fhash", "mac", "requestedName", "hash2", "fz",
   "f", "player_age", "game_version", "lmode", "cbits", "rid", "GDPR",
   "hash", "category", "token", "total_playtime", "door_id", "klv", "meta",
   "platformID", "deviceVersion", "zf", "country", "user", "wk"]

/-- The handler's inline full-handshake string is exactly the canonical
`key|value` block over the full-handshake field order. -/
theorem fullLoginMessage_eq_kvBlock (i : LoginInfo) :
    fullLoginMessage i = kvBlock (fullHandshakeOrder i) := by
  show ("UUIDToken" ++ "|") ++ i.uuid ++ ("\n" ++ "protocol" ++ "|") ++ i.protocol ++
      ("\n" ++ "fhash" ++ "|") ++ i.fhash ++ ("\n" ++ "mac" ++ "|") ++ i.mac ++
      ("\n" ++ "requestedName" ++ "|") ++ i.requested_name ++
      ("\n" ++ "hash2" ++ "|") ++ i.hash2 ++ ("\n" ++ "fz" ++ "|") ++ i.fz ++
      ("\n" ++ "f" ++ "|") ++ i.f ++ ("\n" ++ "player_age" ++ "|") ++ i.player_age ++
      ("\n" ++ "game_version" ++ "|") ++ i.game_version ++
      ("\n" ++ "lmode" ++ "|") ++ i.lmode ++ ("\n" ++ "cbits" ++ "|") ++ i.cbits ++
      ("\n" ++ "rid" ++ "|") ++ i.rid ++ ("\n" ++ "GDPR" ++ "|") ++ i.gdpr ++
      ("\n" ++ "hash" ++ "|") ++ i.hash ++ ("\n" ++ "category" ++ "|") ++ i.category ++
      ("\n" ++ "token" ++ "|") ++ i.token ++
      ("\n" ++ "total_playtime" ++ "|") ++ i.total_playtime ++
      ("\n" ++ "door_id" ++ "|") ++ i.door_id ++ ("\n" ++ "klv" ++ "|") ++ i.klv ++
      ("\n" ++ "meta" ++ "|") ++ i.meta ++
      ("\n" ++ "platformID" ++ "|") ++ i.platform_id ++
      ("\n" ++ "deviceVersion" ++ "|") ++ i.device_version ++
      ("\n" ++ "zf" ++ "|") ++ i.zf ++ ("\n" ++ "country" ++ "|") ++ i.country ++
      ("\n" ++ "user" ++ "|") ++ i.user ++ ("\n" ++ "wk" ++ "|") ++ i.wk ++ "\n"
    = kvBlock (fullHandshakeOrder i)
  simp only [kvBlock, fullHandshakeOrder, String.append_assoc, String.append_empty]

/-- The handler's inline light reconnection string is exactly the canonical
`key|value` block over the three reconnection fields. -/
theorem lightLoginMessage_eq_kvBlock (token : String) :
    lightLoginMessage token =
      kvBlock [("protocol", "209"), ("ltoken", token), ("platformID", "0,1,1")] := by
  show ("protocol" ++ "|" ++ "209" ++ "\n" ++ "ltoken" ++ "|") ++ token ++
      ("\n" ++ "platformID" ++ "|" ++ "0,1,1" ++ "\n")
    = kvBlock [("protocol", "209"), ("ltoken", token), ("platformID", "0,1,1")]
  simp only [kvBlock, String.append_assoc, String.append_empty]

/-- Modelled from the spec: the outer message kinds the dispatcher
distinguishes.  The `EPacketType` enum declaration is not among the provided
sources; `packet_handler.rs` matches exactly these four named variants plus a
catch-all, which `otherKind` stands for. -/
inductive EPacketKind where
  | NetMessageServerHello
  | NetMessageGenericText
  | NetMessageGameMessage
  | NetMessageGamePacket
  | otherKind
  deriving DecidableEq, Repr

/-- The numeric discriminant of `ETankPacketType::NetGamePacketCallFunction`
(`src/types/e_tank_packet_type.rs`: second variant of a `repr(u8)` enum). -/
def netGamePacketCallFunctionTag : Nat := 1

/-- The pieces of bot state `packet_handler::handle` reads: the redirect
flag, the login fingerprint and the stored session token. -/
structure HandlerState where
  is_redirecting : Bool
  login_info : LoginInfo
  token : String
  deriving DecidableEq, Repr

/-- The single observable effect of one `packet_handler::handle` call. -/
inductive HandleResult where
  | sentText (packet_type : EPacketKind) (message : String)
  | loggedGameMessage (data : List Nat)
  | variantDispatch (tail : List Nat)
  | droppedLogged (firstByte : Nat)
  | panicked
  | ignored
  deriving DecidableEq, Repr

/-- `packet_handler::handle` (`src/bot/packet_handler.rs:14`), given the
payload after the 4-byte kind tag.  On `NetMessageGamePacket` it attempts the
`bincode` decode; on failure it logs `data[0]` — which is an out-of-bounds
index, hence a panic, when the payload is empty. -/
def handle (st : HandlerState) (packet_type : EPacketKind) (data : List Nat) :
    HandleResult :=
  match packet_type with
  | .NetMessageServerHello =>
    if st.is_redirecting then
      .sentText .NetMessageGenericText (fullLoginMessage st.login_info)
    else
      .sentText .NetMessageGenericText (lightLoginMessage st.token)
  | .NetMessageGenericText => .ignored
  | .NetMessageGameMessage => .loggedGameMessage data
  | .NetMessageGamePacket =>
    match deserializeTank data with
    | some tank_packet =>
      if tank_packet.packet_type = netGamePacketCallFunctionTag then
        .variantDispatch (data.drop 56)
      else
        .ignored
    | none =>
      match data with
      | [] => .panicked
      | b :: _ => .droppedLogged b
  | .otherKind => .ignored

/-- A `LoginInfo` with every field empty, for concrete evaluations. -/
def emptyLoginData : LoginInfo :=
  ⟨"", "", "", "", "", "", "", "", "", "", "", "", "", "", "",
   "", "", "", "", "", "", "", "", "", "", "", "", "", ""⟩

/-- A handler state that is not redirecting. -/
def plainState : HandlerState :=
  { is_redirecting := false, login_info := emptyLoginData, token := "" }

/-- A handler state that is mid-redirect. -/
def redirectingState : HandlerState :=
  { is_redirecting := true, login_info := emptyLoginData, token := "" }

/-- C2: decode failure is NOT always non-fatal.  On a game-packet event whose
payload after the 4-byte tag is empty (a 4-byte inbound event, which
`process_events` forwards since it only skips events shorter than 4 bytes),
the `Err` arm's diagnostic `data[0]` indexes an empty slice and panics.  For
any non-empty too-short payload the handler does drop and log the first byte
as claimed; the second conjunct shows this for a 1-byte payload. -/
theorem c2_decode_failure_empty_payload_panics :
    handle plainState .NetMessageGamePacket [] = .panicked ∧
      handle plainState .NetMessageGamePacket [0] = .droppedLogged 0 := by
  constructor
  · rfl
  · rfl

/-- C3: the claim has the two branches swapped.  In a mid-redirect state the
handler sends the FULL re-login message, not the light one: the message sent
for `redirectingState` starts with the `UUIDToken` key — which is none of
protocol/ltoken/platformID — and has 27 newline-terminated lines, so it is
not the three-field light reconnection message. -/
theorem c3_server_hello_counterexample :
    handle redirectingState .NetMessageServerHello [] =
        .sentText .NetMessageGenericText (fullLoginMessage emptyLoginData) ∧
      (fullLoginMessage emptyLoginData).data.take 10 = "UUIDToken|".data ∧
      ((fullLoginMessage emptyLoginData).data.filter (fun c => c = '\n')).length = 27 := by
  refine ⟨rfl, by decide, by decide⟩

/-- C3 (amended): for every handled server-hello message, if the session is
mid-redirect (`is_redirecting = true`) the bot sends the FULL re-login
generic-text message built from every `LoginInfo` field in the fixed textual
order; otherwise it sends the light reconnection message containing only the
protocol, token and platform fields. -/
theorem c3_server_hello_amended (st : HandlerState) (d : List Nat) :
    handle st .NetMessageServerHello d =
      .sentText .NetMessageGenericText
        (if st.is_redirecting then kvBlock (fullHandshakeOrder st.login_info)
         else kvBlock [("protocol", "209"), ("ltoken", st.token), ("platformID", "0,1,1")]) := by
  by_cases h : st.is_redirecting <;>
    simp [handle, h, fullLoginMessage_eq_kvBlock, lightLoginMessage_eq_kvBlock]

/-- C4: the full-handshake message contains 27 `LoginInfo` fields, not 26.
On a concrete mid-redirect state the emitted message has 27
newline-terminated `key|value` lines (the field values are empty, so every
newline character ends a line), refuting the claimed count of 26. -/
theorem c4_field_count_counterexample :
    handle redirectingState .NetMessageServerHello [] =
        .sentText .NetMessageGenericText (fullLoginMessage emptyLoginData) ∧
      (fullHandshakeOrder emptyLoginData).length = 27 ∧
      ((fullLoginMessage emptyLoginData).data.filter (fun c => c = '\n')).length ≠ 26 := by
  refine ⟨rfl, by decide, by decide⟩

/-- C4 (amended): when a server-hello is handled while
`is_redirecting = true`, the emitted generic-text message is the canonical
`key|value` block of exactly 27 `LoginInfo` fields in the fixed
full-handshake order, each key exactly once, each on its own line terminated
by a newline. -/
theorem c4_redirect_full_handshake_amended (st : HandlerState) (d : List Nat)
    (h : st.is_redirecting = true) :
    handle st .NetMessageServerHello d =
        .sentText .NetMessageGenericText (kvBlock (fullHandshakeOrder st.login_info)) ∧
      (fullHandshakeOrder st.login_info).map Prod.fst = fullHandshakeKeys ∧
      fullHandshakeKeys.length = 27 ∧
      fullHandshakeKeys.Nodup := by
  refine ⟨?_, rfl, rfl, by decide⟩
  simp [handle, h, fullLoginMessage_eq_kvBlock]

/-- C4 (witness): the amended statement evaluated on a concrete mid-redirect
state. -/
theorem c4_redirect_full_handshake_amended_witness :
    redirectingState.is_redirecting = true ∧
      (handle redirectingState .NetMessageServerHello [] =
          .sentText .NetMessageGenericText
            (kvBlock (fullHandshakeOrder redirectingState.login_info)) ∧
        (fullHandshakeOrder redirectingState.login_info).map Prod.fst = fullHandshakeKeys ∧
        fullHandshakeKeys.length = 27 ∧
        fullHandshakeKeys.Nodup) :=
  ⟨rfl, c4_redirect_full_handshake_amended redirectingState [] rfl⟩

/-! ## Outbound action packets (`Bot::collect` / `Bot::place`,
`src/core/mod.rs:713` and `src/core/mod.rs:761`)

These builders fill a `TankPacket::default()` and overwrite a few fields, so
they are modelled with a record whose coordinates stay exact rationals (the
Rust `f32`/`i32` fields), independent of the byte-level wire model above. -/

/-- `ETankPacketType` (`src/types/e_tank_packet_type.rs`), restricted to the
variants the embedded operations construct or compare. -/
inductive ETankPacketType where
  | NetGamePacketState
  | NetGamePacketCallFunction
  | NetGamePacketTileChangeRequest
  | NetGamePacketItemActivateRequest
  | NetGamePacketItemActivateObjectRequest
  deriving DecidableEq, Repr

/-- An outbound `TankPacket` as the behaviour-level operations build it. -/
structure TankPacketOut where
  packet_type : ETankPacketType
  vector_x : ℚ
  vector_y : ℚ
  int_x : ℤ
  int_y : ℤ
  flags : Nat
  value : Nat
  extended_data_length : Nat
  deriving DecidableEq, Repr

/-- `TankPacket::default()`: every numeric field zero, first enum variant. -/
def defaultTankPacketOut : TankPacketOut :=
  { packet_type := .NetGamePacketState, vector_x := 0, vector_y := 0,
    int_x := 0, int_y := 0, flags := 0, value := 0, extended_data_length := 0 }

/-- One dropped world object (`world.dropped.items` entry): item id, world
uid and pixel coordinates. -/
structure DroppedItem where
  id : Nat
  uid : Nat
  x : ℚ
  y : ℚ
  deriving DecidableEq, Repr

/-- The inventory state `collect` reads (`src/core/inventory.rs` is not
among the provided sources; `collect` reads exactly a capacity `size`, a
distinct-stack count `item_count`, and a lookup from item id to stack
amount, all visible at the call sites in `src/core/mod.rs:734-744`). -/
structure Inventory where
  size : Nat
  item_count : Nat
  items : List (Nat × Nat)
  deriving DecidableEq, Repr

/-- The eligibility decision inside `collect` (`src/core/mod.rs:733-746`). -/
def canCollect (inv : Inventory) (id : Nat) : Bool :=
  if (inv.items.lookup id).isNone ∧ inv.size > inv.item_count then
    true
  else
    match inv.items.lookup id with
    | some amount => decide (amount < 200)
    | none => false

/-- The distance test inside `collect` (`src/core/mod.rs:729-732`):
`dx = |bot_x - obj_x| / 32`, `dy = |bot_y - obj_y| / 32`,
`sqrt (dx^2 + dy^2) <= 5.0`.  Over exact rationals the square root of a
nonnegative number is at most 5 iff the number is at most 25, so the test is
embedded as `dx^2 + dy^2 ≤ 25`. -/
def distanceOK (bot_x bot_y obj_x obj_y : ℚ) : Bool :=
  decide ((|bot_x - obj_x| / 32) ^ 2 + (|bot_y - obj_y| / 32) ^ 2 ≤ 25)

/-- The item-activate-object request packet `collect` sends for one object. -/
def collectPacketFor (obj : DroppedItem) : TankPacketOut :=
  { defaultTankPacketOut with
      packet_type := .NetGamePacketItemActivateObjectRequest,
      vector_x := obj.x, vector_y := obj.y, value := obj.uid }

/-- The `for obj in items` loop body of `collect`. -/
def collectLoop (pos : ℚ × ℚ) (inv : Inventory) : List DroppedItem → List TankPacketOut
  | [] => []
  | obj :: rest =>
    if distanceOK pos.1 pos.2 obj.x obj.y then
      if canCollect inv obj.id then
        collectPacketFor obj :: collectLoop pos inv rest
      else
        collectLoop pos inv rest
    else
      collectLoop pos inv rest

/-- `Bot::collect` (`src/core/mod.rs:713`): returns early unless in a world
(`is_inworld`: world name differs from `"EXIT"`), then walks the dropped
objects, sending an activate-object request for each in-range collectible
one. -/
def collect (worldName : String) (pos : ℚ × ℚ) (dropped : List DroppedItem)
    (inv : Inventory) : List TankPacketOut :=
  if worldName = "EXIT" then [] else collectLoop pos inv dropped

/-- The claim-side per-object decision: within Euclidean distance 5 (in
tiles) and eligible. -/
def specCollects (pos : ℚ × ℚ) (inv : Inventory) (obj : DroppedItem) : Bool :=
  distanceOK pos.1 pos.2 obj.x obj.y && canCollect inv obj.id

theorem collectLoop_eq_filter (pos : ℚ × ℚ) (inv : Inventory)
    (dropped : List DroppedItem) :
    collectLoop pos inv dropped =
      (dropped.filter (specCollects pos inv)).map collectPacketFor := by
  induction dropped with
  | nil => rfl
  | cons obj rest ih =>
    by_cases hd : distanceOK pos.1 pos.2 obj.x obj.y <;>
      by_cases hc : canCollect inv obj.id <;>
        simp [collectLoop, List.filter_cons, specCollects, hd, hc, ih]

theorem abs_div_thirtytwo_sq (a : ℚ) : (|a| / 32) ^ 2 = (a / 32) ^ 2 := by
  rw [div_pow, div_pow, sq_abs]

theorem distanceOK_eq_true_iff (bot_x bot_y obj_x obj_y : ℚ) :
    distanceOK bot_x bot_y obj_x obj_y = true ↔
      ((bot_x - obj_x) / 32) ^ 2 + ((bot_y - obj_y) / 32) ^ 2 ≤ 25 := by
  rw [distanceOK, decide_eq_true_eq, abs_div_thirtytwo_sq, abs_div_thirtytwo_sq]

theorem canCollect_eq_true_iff (inv : Inventory) (id : Nat) :
    canCollect inv id = true ↔
      ((inv.items.lookup id = none ∧ inv.item_count < inv.size) ∨
        ∃ amount, inv.items.lookup id = some amount ∧ amount < 200) := by
  rw [canCollect]
  cases hlook : inv.items.lookup id <;> simp [hlook]

/-- C5: in a world, `collect` sends an item-activate-object packet for
exactly the dropped objects whose Euclidean distance from the bot is at most
5 tiles and which are eligible: eligible when the inventory has no stack of
that id and the distinct-item count is strictly below the capacity, or when
an existing stack of that id holds strictly fewer than 200 units (so 199 is
collectible, 200 is not, and a brand-new id with the capacity reached is
not). -/
theorem c5_collect_eligibility (worldName : String) (pos : ℚ × ℚ)
    (dropped : List DroppedItem) (inv : Inventory) (h : worldName ≠ "EXIT") :
    collect worldName pos dropped inv =
        (dropped.filter (specCollects pos inv)).map collectPacketFor ∧
      ∀ obj : DroppedItem,
        specCollects pos inv obj = true ↔
          ((pos.1 - obj.x) / 32) ^ 2 + ((pos.2 - obj.y) / 32) ^ 2 ≤ 25 ∧
            ((inv.items.lookup obj.id = none ∧ inv.item_count < inv.size) ∨
              ∃ amount, inv.items.lookup obj.id = some amount ∧ amount < 200) := by
  constructor
  · rw [collect, if_neg h, collectLoop_eq_filter]
  · intro obj
    rw [specCollects, Bool.and_eq_true, distanceOK_eq_true_iff, canCollect_eq_true_iff]

/-- An inventory holding a 199-unit stack of item 7, with spare capacity. -/
def witnessInv : Inventory := { size := 16, item_count := 1, items := [(7, 199)] }

/-- A dropped object of item 7 three tiles to the right of the origin. -/
def witnessObj : DroppedItem := { id := 7, uid := 42, x := 96, y := 0 }

/-- C5 (witness): the eligibility law evaluated on a concrete in-world state
in which the 199-unit stack makes the object collectible. -/
theorem c5_collect_eligibility_witness :
    ("FARM" : String) ≠ "EXIT" ∧
      collect "FARM" (0, 0) [witnessObj] witnessInv =
        (([witnessObj].filter (specCollects (0, 0) witnessInv)).map collectPacketFor) ∧
      collect "FARM" (0, 0) [witnessObj] witnessInv = [collectPacketFor witnessObj] := by
  have hd : distanceOK 0 0 (96 : ℚ) 0 = true := by
    rw [distanceOK, decide_eq_true_eq]
    norm_num
  have hc : canCollect witnessInv 7 = true := by decide
  refine ⟨by decide,
    (c5_collect_eligibility "FARM" (0, 0) [witnessObj] witnessInv (by decide)).1, ?_⟩
  simp [collect, collectLoop, witnessObj, hd, hc]

/-- The tile-change-request packet `place` builds
(`src/core/mod.rs:762-773`): vector fields hold the bot's pixel position,
the integer fields the target tile (bot tile plus offset), `value` the item
id. -/
def placeTilePacket (pos : ℚ × ℚ) (offset_x offset_y : ℤ) (item_id : Nat) :
    TankPacketOut :=
  { defaultTankPacketOut with
      packet_type := .NetGamePacketTileChangeRequest,
      vector_x := pos.1, vector_y := pos.2,
      int_x := ⌊pos.1 / 32⌋ + offset_x, int_y := ⌊pos.2 / 32⌋ + offset_y,
      value := item_id }

/-- The follow-up state packet of `place` (`src/core/mod.rs:785-787`): the
same record with the packet type replaced and the facing-direction flags set
(`2592` when the offset points right, `2608` otherwise). -/
def placeStatePacket (pos : ℚ × ℚ) (offset_x offset_y : ℤ) (item_id : Nat) :
    TankPacketOut :=
  { placeTilePacket pos offset_x offset_y item_id with
      packet_type := .NetGamePacketState,
      flags := if offset_x > 0 then 2592 else 2608 }

/-- `Bot::place` (`src/core/mod.rs:761`): builds the tile-change request,
then sends it followed by the state packet iff the target tile passes the
range check `base - 4 ≤ target ≤ base + 4` on both axes; otherwise nothing
is sent. -/
def place (pos : ℚ × ℚ) (offset_x offset_y : ℤ) (item_id : Nat) :
    List TankPacketOut :=
  if ⌊pos.1 / 32⌋ + offset_x ≤ ⌊pos.1 / 32⌋ + 4 ∧
      ⌊pos.1 / 32⌋ + offset_x ≥ ⌊pos.1 / 32⌋ - 4 ∧
      ⌊pos.2 / 32⌋ + offset_y ≤ ⌊pos.2 / 32⌋ + 4 ∧
      ⌊pos.2 / 32⌋ + offset_y ≥ ⌊pos.2 / 32⌋ - 4 then
    [placeTilePacket pos offset_x offset_y item_id,
     placeStatePacket pos offset_x offset_y item_id]
  else
    []

/-- C6: `place` proceeds exactly when the target tile lies within a 4-tile
Chebyshev radius of the bot's current tile; when accepted it sends exactly
two packets — a tile-change-request followed by a state packet whose flag
field is `2592` when `offset_x > 0` and `2608` otherwise — and when rejected
it sends none. -/
theorem c6_place_range_and_packets (pos : ℚ × ℚ) (offset_x offset_y : ℤ)
    (item_id : Nat) :
    place pos offset_x offset_y item_id =
      if max |offset_x| |offset_y| ≤ 4 then
        [{ defaultTankPacketOut with
             packet_type := .NetGamePacketTileChangeRequest,
             vector_x := pos.1, vector_y := pos.2,
             int_x := ⌊pos.1 / 32⌋ + offset_x, int_y := ⌊pos.2 / 32⌋ + offset_y,
             value := item_id },
         { defaultTankPacketOut with
             packet_type := .NetGamePacketState,
             vector_x := pos.1, vector_y := pos.2,
             int_x := ⌊pos.1 / 32⌋ + offset_x, int_y := ⌊pos.2 / 32⌋ + offset_y,
             flags := if offset_x > 0 then 2592 else 2608,
             value := item_id }] else [] := by
  have hiff : (⌊pos.1 / 32⌋ + offset_x ≤ ⌊pos.1 / 32⌋ + 4 ∧
      ⌊pos.1 / 32⌋ + offset_x ≥ ⌊pos.1 / 32⌋ - 4 ∧
      ⌊pos.2 / 32⌋ + offset_y ≤ ⌊pos.2 / 32⌋ + 4 ∧
      ⌊pos.2 / 32⌋ + offset_y ≥ ⌊pos.2 / 32⌋ - 4) ↔
      max |offset_x| |offset_y| ≤ 4 := by
    rw [max_le_iff, abs_le, abs_le]
    omega
  rw [place]
  by_cases h : max |offset_x| |offset_y| ≤ 4
  · rw [if_pos (hiff.mpr h), if_pos h]
    rfl
  · rw [if_neg (fun hcond => h (hiff.mp hcond)), if_neg h]

/-- A sample of the C6 law at concrete offsets: `(4,4)` is accepted with the
two packets, `(5,0)` is rejected with none. -/
theorem place_boundary_sample :
    place (0, 0) 4 4 18 =
        [placeTilePacket (0, 0) 4 4 18, placeStatePacket (0, 0) 4 4 18] ∧
      place (0, 0) 5 0 18 = [] := by
  constructor
  · rw [place, if_pos]
    norm_num
  · rw [place, if_neg]
    norm_num

/-! ## The reconnect sequence (`Bot::reconnect`, `src/core/mod.rs:214`)

`reconnect` is straight-line effectful code; it is embedded as a function of
the session fields it reads and of the results of its blocking sub-calls
(which `to_http`/`get_oauth_links` retry internally until they produce a
value), returning its boolean result together with the ordered trace of the
steps it performs. -/

/-- Modelled from the spec: the login methods.  The `ELoginMethod` enum
declaration is not among the provided sources; `src/core/mod.rs` matches the
`GOOGLE`, `LEGACY` and `STEAM` variants plus a catch-all, and the spec names
apple as the remaining OAuth path. -/
inductive ELoginMethod where
  | GOOGLE
  | LEGACY
  | STEAM
  | APPLE
  deriving DecidableEq, Repr

/-- One observable step of `reconnect`, in execution order. -/
inductive ReconnectStep where
  | fetchServerData
  | acquireOAuthLinks
  | acquireToken
  | checkRunning
  | connect (ip : String) (port : String)
  deriving DecidableEq, Repr

/-- The session fields `reconnect` branches on. -/
structure ReconnectSession where
  login_method : ELoginMethod
  oauth_links : List String
  deriving DecidableEq, Repr

/-- The environment of one `reconnect` run: the parsed server-discovery map
produced by `to_http`, the result of `get_oauth_links`, and the value of the
running flag at the post-token checkpoint. -/
structure ReconnectEnv where
  server_data : List (String × String)
  oauth_result : Except String (List String)
  running_at_checkpoint : Bool
  deriving Repr

/-- The tail of `reconnect` after the OAuth block (`src/core/mod.rs:246`):
`get_token`, the running-flag checkpoint (return `false` when cleared), then
`connect_to_server` on the `server`/`port` entries of the discovery map
(empty-string defaults) and return `true`. -/
def reconnectRest (env : ReconnectEnv) (trace : List ReconnectStep) :
    Bool × List ReconnectStep :=
  let trace := trace ++ [ReconnectStep.acquireToken, ReconnectStep.checkRunning]
  if !env.running_at_checkpoint then
    (false, trace)
  else
    (true,
     trace ++ [ReconnectStep.connect ((env.server_data.lookup "server").getD "")
        ((env.server_data.lookup "port").getD "")])

/-- `Bot::reconnect` (`src/core/mod.rs:214`): `to_http`, then — only when
the login method is not `STEAM` and the stored OAuth link list is empty —
`get_oauth_links` (returning `false` on its error), then the tail above. -/
def reconnect (s : ReconnectSession) (env : ReconnectEnv) :
    Bool × List ReconnectStep :=
  if s.login_method ≠ ELoginMethod.STEAM ∧ s.oauth_links = [] then
    match env.oauth_result with
    | Except.ok _ =>
      reconnectRest env [ReconnectStep.fetchServerData, ReconnectStep.acquireOAuthLinks]
    | Except.error _ =>
      (false, [ReconnectStep.fetchServerData, ReconnectStep.acquireOAuthLinks])
  else
    reconnectRest env [ReconnectStep.fetchServerData]

/-- C7: provided OAuth-link acquisition succeeds when it runs, `reconnect`
performs fetch-server-data, then OAuth-link acquisition exactly when the
login method is not `STEAM` and the stored link list is empty, then token
acquisition, then the running-flag check; when the flag is cleared it
returns `false` without a connect step, otherwise it connects to the
`server`/`port` entries of the discovery map and returns `true`. -/
theorem c7_reconnect_order (s : ReconnectSession) (env : ReconnectEnv)
    (hok : env.oauth_result.isOk = true) :
    reconnect s env =
      (env.running_at_checkpoint,
       [ReconnectStep.fetchServerData] ++
         (if s.login_method ≠ ELoginMethod.STEAM ∧ s.oauth_links = [] then
            [ReconnectStep.acquireOAuthLinks] else []) ++
         [ReconnectStep.acquireToken, ReconnectStep.checkRunning] ++
         (if env.running_at_checkpoint then
            [ReconnectStep.connect ((env.server_data.lookup "server").getD "")
              ((env.server_data.lookup "port").getD "")] else [])) := by
  cases hres : env.oauth_result with
  | error e =>
    rw [hres] at hok
    simp [Except.isOk, Except.toBool] at hok
  | ok links =>
    by_cases hcond : s.login_method ≠ ELoginMethod.STEAM ∧ s.oauth_links = [] <;>
      cases hrun : env.running_at_checkpoint <;>
        simp [reconnect, reconnectRest, hres, hcond, hrun]

/-- A concrete reconnect environment: discovery returned
`server|1.2.3.4`/`port|17091`, OAuth succeeded, the session is running. -/
def reconnectEnvSample : ReconnectEnv :=
  { server_data := [("server", "1.2.3.4"), ("port", "17091")],
    oauth_result := Except.ok [], running_at_checkpoint := true }

/-- C7 (witness): the reconnect order evaluated for a GOOGLE session with no
stored links, ending in a connect to `1.2.3.4:17091` and the result
`true`. -/
theorem c7_reconnect_order_witness :
    reconnectEnvSample.oauth_result.isOk = true ∧
      reconnect { login_method := ELoginMethod.GOOGLE, oauth_links := [] }
          reconnectEnvSample =
        (true, [ReconnectStep.fetchServerData, ReconnectStep.acquireOAuthLinks,
                ReconnectStep.acquireToken, ReconnectStep.checkRunning,
                ReconnectStep.connect "1.2.3.4" "17091"]) := by
  refine ⟨rfl, ?_⟩
  rw [c7_reconnect_order { login_method := ELoginMethod.GOOGLE, oauth_links := [] }
    reconnectEnvSample rfl]
  decide

/-! ## The backoff primitive (`Bot::sleep`, `src/core/mod.rs:379`)

`sleep` adds the configured timeout to the countdown stored in the session,
then loops `while timeout > 0`, each iteration decrementing the countdown,
dropping the lock on it, sleeping one second and re-acquiring the lock.  With
no concurrent mutation the run is a pure function of the starting countdown;
it is embedded as the list of countdown values observable while the lock is
released at each one-second boundary, paired with the final countdown. -/

def sleepCountdown (t : Int) : List Int × Int :=
  if h : 0 < t then
    let r := sleepCountdown (t - 1)
    ((t - 1) :: r.1, r.2)
  else
    ([], t)
termination_by t.toNat
decreasing_by simp_wf; omega

/-- `Bot::sleep`: the countdown starts at `start`, is increased by the
configured timeout `T`, and the loop then runs. -/
def sleepRun (start : Int) (T : Nat) : List Int × Int :=
  sleepCountdown (start + T)

theorem sleepCountdown_ofNat (n : Nat) :
    sleepCountdown (n : Int) = ((List.range n).reverse.map Int.ofNat, 0) := by
  induction n with
  | zero => rw [sleepCountdown]; rfl
  | succ m ih =>
    rw [sleepCountdown]
    have hpos : (0 : Int) < ((m + 1 : Nat) : Int) := by positivity
    rw [dif_pos hpos]
    have hstep : ((m + 1 : Nat) : Int) - 1 = (m : Int) := by push_cast; ring
    rw [hstep, ih, List.range_succ, List.reverse_append]
    simp only [List.reverse_cons, List.reverse_nil, List.nil_append,
      List.cons_append, List.map_cons]
    rfl

/-- C8: started from a countdown of 0 with no concurrent mutation, `sleep`
with configured timeout `T` adds `T` to the countdown and performs exactly
`T` one-second decrements before returning with the countdown at 0; the
countdown values observable at the one-second lock-release boundaries are
`T-1, T-2, …, 0` — one per decrement, so the value is visible at every
one-second boundary. -/
theorem c8_sleep_decrements (T : Nat) :
    sleepRun 0 T = ((List.range T).reverse.map Int.ofNat, 0) ∧
      (sleepRun 0 T).1.length = T := by
  have h : sleepRun 0 T = ((List.range T).reverse.map Int.ofNat, 0) := by
    rw [sleepRun, Int.zero_add, sleepCountdown_ofNat]
  refine ⟨h, ?_⟩
  rw [h, List.length_map, List.length_reverse, List.length_range]

/-! ## Claiming a proxy slot (`Bot::new`, `src/core/mod.rs:105`)

When a bot is configured to use a proxy, construction scans the shared pool
for the first entry whose `whos_using` list has fewer than 3 identities and
pushes the new bot's identity onto it; when no such entry exists nothing is
assigned. -/

/-- One SOCKS5 proxy record (fields read at `src/core/mod.rs:110-112`). -/
structure Socks5Proxy where
  ip : String
  port : String
  username : String
  password : String
  deriving DecidableEq, Repr

/-- A pool entry: the proxy plus the identities currently assigned to it. -/
structure ProxyData where
  proxy : Socks5Proxy
  whos_using : List String
  deriving DecidableEq, Repr

/-- The claim step of `Bot::new` (`src/core/mod.rs:107-109`):
`position(|proxy| proxy.whos_using.len() < 3)` followed by a push of the new
identity onto that entry. -/
def claimProxySlot : List ProxyData → String → List ProxyData
  | [], _ => []
  | p :: rest, identity =>
    if p.whos_using.length < 3 then
      { p with whos_using := p.whos_using ++ [identity] } :: rest
    else
      p :: claimProxySlot rest identity

theorem claimProxySlot_of_none (pool : List ProxyData) (identity : String)
    (h : ∀ p ∈ pool, ¬p.whos_using.length < 3) :
    claimProxySlot pool identity = pool := by
  induction pool with
  | nil => rfl
  | cons p rest ih =>
    rw [claimProxySlot, if_neg (h p (List.mem_cons_self _ _)),
      ih (fun q hq => h q (List.mem_cons_of_mem _ hq))]

theorem claimProxySlot_of_first (pool : List ProxyData) (identity : String)
    (pre : List ProxyData) (q : ProxyData) (post : List ProxyData)
    (hsplit : pool = pre ++ q :: post)
    (hpre : ∀ r ∈ pre, ¬r.whos_using.length < 3)
    (hq : q.whos_using.length < 3) :
    claimProxySlot pool identity =
      pre ++ { q with whos_using := q.whos_using ++ [identity] } :: post := by
  subst hsplit
  induction pre with
  | nil => rw [List.nil_append, claimProxySlot, if_pos hq, List.nil_append]
  | cons r rest ih =>
    rw [List.cons_append, claimProxySlot, if_neg (hpre r (List.mem_cons_self _ _)),
      ih (fun x hx => hpre x (List.mem_cons_of_mem _ hx)), List.cons_append]

/-- C9: if every entry of the pool holds at most 3 identities, the claim
step preserves that bound; it assigns the new identity only to the first
entry with strictly fewer than 3 assignments (leaving every other entry
untouched), and assigns nothing at all when no such entry exists. -/
theorem c9_proxy_claim_invariant (pool : List ProxyData) (identity : String)
    (h : ∀ p ∈ pool, p.whos_using.length ≤ 3) :
    (∀ p ∈ claimProxySlot pool identity, p.whos_using.length ≤ 3) ∧
      ((∀ p ∈ pool, ¬p.whos_using.length < 3) →
        claimProxySlot pool identity = pool) ∧
      (∀ pre q post, pool = pre ++ q :: post →
        (∀ r ∈ pre, ¬r.whos_using.length < 3) → q.whos_using.length < 3 →
        claimProxySlot pool identity =
          pre ++ { q with whos_using := q.whos_using ++ [identity] } :: post) := by
  refine ⟨?_, claimProxySlot_of_none pool identity,
    fun pre q post hsplit hpre hq =>
      claimProxySlot_of_first pool identity pre q post hsplit hpre hq⟩
  induction pool with
  | nil => intro p hp; cases hp
  | cons p rest ih =>
    intro x hx
    rw [claimProxySlot] at hx
    by_cases hp : p.whos_using.length < 3
    · rw [if_pos hp] at hx
      rcases List.mem_cons.mp hx with hx | hx
      · subst hx
        simp only [List.length_append, List.length_cons, List.length_nil]
        omega
      · exact h x (List.mem_cons_of_mem _ hx)
    · rw [if_neg hp] at hx
      rcases List.mem_cons.mp hx with hx | hx
      · subst hx
        exact h x (List.mem_cons_self _ _)
      · exact ih (fun r hr => h r (List.mem_cons_of_mem _ hr)) x hx

/-- A concrete pool: the first proxy is full, the second has one slot used. -/
def proxyPoolSample : List ProxyData :=
  [{ proxy := { ip := "10.0.0.1", port := "1080", username := "u1", password := "p1" },
     whos_using := ["a", "b", "c"] },
   { proxy := { ip := "10.0.0.2", port := "1080", username := "u2", password := "p2" },
     whos_using := ["a"] }]

/-- C9 (witness): the invariant law evaluated on `proxyPoolSample`; the new
identity lands on the second entry and every entry stays at or below 3. -/
theorem c9_proxy_claim_invariant_witness :
    (∀ p ∈ proxyPoolSample, p.whos_using.length ≤ 3) ∧
      (∀ p ∈ claimProxySlot proxyPoolSample "d", p.whos_using.length ≤ 3) ∧
      claimProxySlot proxyPoolSample "d" =
        [{ proxy := { ip := "10.0.0.1", port := "1080", username := "u1", password := "p1" },
           whos_using := ["a", "b", "c"] },
         { proxy := { ip := "10.0.0.2", port := "1080", username := "u2", password := "p2" },
           whos_using := ["a", "d"] }] :=
  ⟨by decide, (c9_proxy_claim_invariant proxyPoolSample "d" (by decide)).1, by decide⟩

/-! ## Positional payload indexing in `get_token` (`src/core/mod.rs:390`)

`get_token` returns early when the stored token still refreshes; otherwise
it dispatches on the login method and passes payload fields to the
method-specific login call by raw positional indexing — `&payload[0]`,
`&payload[1]` for `GOOGLE` and `LEGACY`, `&payload[0]` through `&payload[3]`
for `STEAM` — with no length check.  The OAuth-link accesses use the checked
`oauth_links.get(i).unwrap_or(...)` and cannot panic.  An out-of-bounds
index is a Rust panic, embedded as the `panicked` outcome; reaching the
method-specific login call is abstracted as `invokedLogin`. -/

/-- The observable outcome of one `get_token` run, up to the point where a
method-specific login call would take over. -/
inductive TokenOutcome where
  | earlyValid
  | panicked
  | invokedLogin
  | invalidMethod
  deriving DecidableEq, Repr

/-- The number of payload fields each login method's dispatch arm indexes. -/
def requiredPayloadLen : ELoginMethod → Nat
  | .GOOGLE => 2
  | .LEGACY => 2
  | .STEAM => 4
  | _ => 0

/-- `Bot::get_token` (`src/core/mod.rs:390`), as a function of the
`token_still_valid` result and the session fields it reads. -/
def get_token (token_still_valid : Bool) (method : ELoginMethod)
    (payload : List String) : TokenOutcome :=
  if token_still_valid then
    .earlyValid
  else
    match method with
    | .GOOGLE =>
      match payload.get? 0, payload.get? 1 with
      | some _, some _ => .invokedLogin
      | _, _ => .panicked
    | .LEGACY =>
      match payload.get? 0, payload.get? 1 with
      | some _, some _ => .invokedLogin
      | _, _ => .panicked
    | .STEAM =>
      match payload.get? 0, payload.get? 1, payload.get? 2, payload.get? 3 with
      | some _, some _, some _, some _ => .invokedLogin
      | _, _, _, _ => .panicked
    | _ => .invalidMethod

/-- The unconditional `payload[0]` access of `Bot::new`
(`src/core/mod.rs:105`): `none` is an out-of-bounds panic. -/
def botNewPayloadAccess (payload : List String) : Option String :=
  payload.get? 0

/-- C10: for the `GOOGLE`, `LEGACY` and `STEAM` methods, whenever the stored
token does not refresh and the parsed payload has fewer fields than the
method's dispatch arm indexes (2, 2 and 4 respectively), `get_token` hits an
out-of-bounds payload index and panics instead of returning a failure or
logging an error; `Bot::new` likewise indexes `payload[0]` unconditionally,
so an empty payload has no value to yield there. -/
theorem c10_get_token_short_payload_panics (method : ELoginMethod)
    (payload : List String)
    (hm : method = .GOOGLE ∨ method = .LEGACY ∨ method = .STEAM)
    (hlen : payload.length < requiredPayloadLen method) :
    get_token false method payload = .panicked ∧
      botNewPayloadAccess [] = none := by
  refine ⟨?_, rfl⟩
  rcases hm with h | h | h <;> subst h <;>
    rcases payload with _ | ⟨a, _ | ⟨b, _ | ⟨c, _ | ⟨d, rest⟩⟩⟩⟩ <;>
      first
        | rfl
        | (exfalso
           simp only [requiredPayloadLen, List.length_cons, List.length_nil] at hlen
           omega)

/-- C10 (witness): `get_token` on a `GOOGLE` session with an unrefreshable
token and an empty payload panics. -/
theorem c10_get_token_short_payload_panics_witness :
    ([] : List String).length < requiredPayloadLen ELoginMethod.GOOGLE ∧
      (get_token false ELoginMethod.GOOGLE [] = TokenOutcome.panicked ∧
        botNewPayloadAccess [] = none) :=
  ⟨by decide,
    c10_get_token_short_payload_panics ELoginMethod.GOOGLE [] (Or.inl rfl) (by decide)⟩

end Mori
